import Mathlib

/-!
Shallow embedding of the "Cookie" object system from TowardsOO.ipynb:
instances ("cookie") holding a value store and deferring operations to a
descriptor ("CookieCutter") that resolves an operation name in its own
operation table and falls back to an ordered list of delegate cutters,
plus the parametric (mood-indexed) variant.
-/

namespace TowardsOO

/-- Dynamically typed property values (the notebook only ever stores
strings, but the data model allows numbers and booleans as well);
`none` models Python's None, the implicit result of the set accessor. -/
inductive Value where
  | str (s : String)
  | num (n : Int)
  | bool (b : Bool)
  | none
deriving DecidableEq, Repr

/-- Python str() conversion, as used by f-string interpolation. -/
def pyToString : Value → String
  | .str s => s
  | .num n => toString n
  | .bool true => "True"
  | .bool false => "False"
  | .none => "None"

/-- The failure kinds the notebook code can raise:
Exception("no such operation", op) from CookieCutter.do;
KeyError on the value store (get accessor on an absent key);
KeyError on the parametric helpers mapping (absent mood);
IndexError for args[0] on an empty argument tuple;
TypeError for a call with a missing required positional argument;
outOfFuel is an artifact of the fuel-indexed embedding. -/
inductive Err where
  | noSuchOperation (op : String)
  | noSuchProperty (key : String)
  | noSuchMode (mood : String)
  | indexError
  | typeError
  | outOfFuel
deriving DecidableEq, Repr

/-- Python s.startswith(pre), character by character: charsStartWith pre s
decides whether the character list pre is an initial segment of s. -/
def charsStartWith : List Char → List Char → Bool
  | [], _ => true
  | _ :: _, [] => false
  | p :: ps, c :: cs => p = c && charsStartWith ps cs

/-- Python s.startswith(pre) on strings (Python strings are character
sequences, so the comparison is character-based). -/
def pyStartsWith (s pre : String) : Bool :=
  charsStartWith pre.data s.data

/-- Python slicing s[n:]: drop the first n characters. -/
def pyDrop (s : String) (n : Nat) : String :=
  ⟨s.data.drop n⟩

/-- Python s.lower(): lowercase every character (Char.toLower handles
the basic latin letters, which is all the notebook uses). -/
def pyLower (s : String) : String :=
  ⟨s.data.map Char.toLower⟩

/-- Python s.capitalize(): uppercase the first character and lowercase
the rest.  The spec's accessor names are "get"/"set" + capitalize(key). -/
def pyCapitalize (s : String) : String :=
  match s.data with
  | [] => ""
  | c :: cs => ⟨c.toUpper :: cs.map Char.toLower⟩

/-- Python dict lookup d[k] (first binding wins; dicts have unique keys). -/
def lookupKey {α : Type} : List (String × α) → String → Option α
  | [], _ => Option.none
  | (k', v) :: rest, k => if k' = k then some v else lookupKey rest k

/-- Python dict assignment d[k] = v: replace the existing binding or
append a new one. -/
def storeKey {α : Type} : List (String × α) → String → α → List (String × α)
  | [], k, v => [(k, v)]
  | (k', v') :: rest, k, v =>
    if k' = k then (k, v) :: rest else (k', v') :: storeKey rest k v

/-- Deep embedding of the operation bodies occurring in the notebook:
string literals, f-string concatenation, str(cookie) interpolation,
a recursive cookie.do(op) call with no extra arguments, the equality
conditional of bake_macadamia, and access to a positional argument. -/
inductive Expr where
  | lit (s : String)
  | append (a b : Expr)
  | selfStr
  | selfDo (op : String)
  | eqIte (a b t e : Expr)
  | arg (i : Nat)
deriving DecidableEq, Repr

/-- CookieCutter (inheritance version, notebook cell 41): a name, an
operation table, and an ordered list of helper (delegate) cutters. -/
inductive CookieCutter where
  | mk (name : String) (operations : List (String × Expr))
       (helpers : List CookieCutter)

def CookieCutter.name : CookieCutter → String
  | .mk n _ _ => n

def CookieCutter.operations : CookieCutter → List (String × Expr)
  | .mk _ ops _ => ops

def CookieCutter.helpers : CookieCutter → List CookieCutter
  | .mk _ _ hs => hs

/-- printCookie of the inheritance CookieCutter: self._name + " cookie". -/
def CookieCutter.printCookie (c : CookieCutter) : String :=
  c.name ++ " cookie"

/-- cookie: a cutter reference plus the local value store. -/
structure Cookie where
  cutter : CookieCutter
  values : List (String × Value)

/- The mutually recursive pieces of the dispatch semantics, indexed by
fuel (every call decreases it by one; a too small fuel yields the
artificial Err.outOfFuel, never a source behaviour). -/
mutual

/-- Evaluation of an operation body against a cookie and the positional
arguments the cutter passed to the operation.  State (the cookie) is
threaded left to right, as Python mutates the cookie in place. -/
def evalExpr : Nat → Expr → Cookie → List Value → Except Err Value × Cookie
  | 0, _, ck, _ => (.error .outOfFuel, ck)
  | fuel+1, e, ck, args =>
    match e with
    | .lit s => (.ok (.str s), ck)
    | .selfStr => (.ok (.str ck.cutter.printCookie), ck)
    | .arg i =>
      match args.get? i with
      | some v => (.ok v, ck)
      | Option.none => (.error .indexError, ck)
    | .append a b =>
      match evalExpr fuel a ck args with
      | (.ok va, ck1) =>
        match evalExpr fuel b ck1 args with
        | (.ok vb, ck2) => (.ok (.str (pyToString va ++ pyToString vb)), ck2)
        | (.error e2, ck2) => (.error e2, ck2)
      | (.error e1, ck1) => (.error e1, ck1)
    | .eqIte a b t el =>
      match evalExpr fuel a ck args with
      | (.ok va, ck1) =>
        match evalExpr fuel b ck1 args with
        | (.ok vb, ck2) =>
          if va = vb then evalExpr fuel t ck2 args else evalExpr fuel el ck2 args
        | (.error e2, ck2) => (.error e2, ck2)
      | (.error e1, ck1) => (.error e1, ck1)
    | .selfDo op => cookieDo fuel ck op []
termination_by structural fuel _ _ _ => fuel

/-- cookie.do(op, *args) of the notebook:
if op.startswith("set"): self._values[op[3:].lower()] = args[0]  (returns None);
elif op.startswith("get"): return self._values[op[3:].lower()];
else: return self._cutter.do(self, op)   -- note: args are NOT forwarded. -/
def cookieDo : Nat → Cookie → String → List Value → Except Err Value × Cookie
  | 0, ck, _, _ => (.error .outOfFuel, ck)
  | fuel+1, ck, op, args =>
    if pyStartsWith op "set" then
      match args with
      | [] => (.error .indexError, ck)
      | v :: _ =>
        (.ok .none, { ck with values := storeKey ck.values (pyLower (pyDrop op 3)) v })
    else if pyStartsWith op "get" then
      match lookupKey ck.values (pyLower (pyDrop op 3)) with
      | some v => (.ok v, ck)
      | Option.none => (.error (.noSuchProperty (pyLower (pyDrop op 3))), ck)
    else
      cutterDo fuel ck.cutter ck op []
termination_by structural fuel _ _ _ => fuel

/-- CookieCutter.do(cookie, op, *args) of the inheritance version:
if op is not in self._operations, scan the helpers (see tryHelpers),
else invoke self._operations[op](cookie, *args). -/
def cutterDo : Nat → CookieCutter → Cookie → String → List Value →
    Except Err Value × Cookie
  | 0, _, ck, _, _ => (.error .outOfFuel, ck)
  | fuel+1, cu, ck, op, args =>
    match lookupKey cu.operations op with
    | some body => evalExpr fuel body ck args
    | Option.none => tryHelpers fuel cu.helpers ck op args
termination_by structural fuel _ _ _ _ => fuel

/-- The helper loop of CookieCutter.do:
for helper in self._helpers: try: return helper.do(cookie, op, *args)
except: pass  -- ANY failure falls through to the next helper;
after the loop: raise Exception("no such operation", op). -/
def tryHelpers : Nat → List CookieCutter → Cookie → String → List Value →
    Except Err Value × Cookie
  | 0, _, ck, _, _ => (.error .outOfFuel, ck)
  | _+1, [], ck, op, _ => (.error (.noSuchOperation op), ck)
  | fuel+1, h :: rest, ck, op, args =>
    match cutterDo fuel h ck op args with
    | (.ok v, ck') => (.ok v, ck')
    | (.error _, ck') => tryHelpers fuel rest ck' op args
termination_by structural fuel _ _ _ _ => fuel

end

deriving instance DecidableEq for Except

/-! ### Concrete objects of the notebook (inheritance version) -/

/-- bake_macadamia(cookie):
return str(30) if cookie.do("getColor") == "white" else str(100). -/
def bake_macadamia : Expr :=
  .eqIte (.selfDo "getColor") (.lit "white") (.lit "30") (.lit "100")

/-- contemplate(cookie) of the inheritance cell: the f-string
"I am looking at a delicious ...cookie..., baked at ...bake....
Temptation is strong." -/
def contemplate : Expr :=
  .append (.lit "I am looking at a delicious ")
    (.append .selfStr
      (.append (.lit ", baked at ")
        (.append (.selfDo "bake") (.lit ". Temptation is strong."))))

def nutsCookieCutter : CookieCutter :=
  .mk "NutsCookie" [("contemplate", contemplate)] []

def macadamiaCookieCutter : CookieCutter :=
  .mk "MacadamiaCookie" [("bake", bake_macadamia)] [nutsCookieCutter]

/-- noonCookie = macadamiaCookieCutter.newCookie(color = "white"). -/
def noonCookie : Cookie :=
  ⟨macadamiaCookieCutter, [("color", .str "white")]⟩

/-- midnightCookie = macadamiaCookieCutter.newCookie(color = "dark"). -/
def midnightCookie : Cookie :=
  ⟨macadamiaCookieCutter, [("color", .str "dark")]⟩

/-! ### The parametric (mood-indexed) variant, notebook cell 42 -/

/-- Parametric CookieCutter: the helpers are a mapping from a
discriminator ("mood") string to a single delegate cutter. -/
inductive PCookieCutter where
  | mk (name : String) (operations : List (String × Expr))
       (helpers : List (String × PCookieCutter))

def PCookieCutter.name : PCookieCutter → String
  | .mk n _ _ => n

def PCookieCutter.operations : PCookieCutter → List (String × Expr)
  | .mk _ ops _ => ops

def PCookieCutter.helpers : PCookieCutter → List (String × PCookieCutter)
  | .mk _ _ hs => hs

def PCookieCutter.printCookie (c : PCookieCutter) : String :=
  c.name ++ " cookie"

/-- Parametric cookie: cutter reference plus local value store. -/
structure PCookie where
  cutter : PCookieCutter
  values : List (String × Value)

/-- Evaluation of an operation body in the parametric variant.  The
parametric operations of the notebook (contemplate, succumb) never call
back into cookie.do; such a call would be a TypeError there, because
the parametric cookie.do(op, mood, *args) requires the extra mood
argument, so selfDo is mapped to Err.typeError.  No operation can
mutate the store here, so no state is threaded. -/
def evalExprP : Expr → PCookie → List Value → Except Err Value
  | .lit s, _, _ => .ok (.str s)
  | .selfStr, ck, _ => .ok (.str ck.cutter.printCookie)
  | .arg i, _, args =>
    match args.get? i with
    | some v => .ok v
    | Option.none => .error .indexError
  | .selfDo _, _, _ => .error .typeError
  | .append a b, ck, args =>
    match evalExprP a ck args with
    | .ok va =>
      match evalExprP b ck args with
      | .ok vb => .ok (.str (pyToString va ++ pyToString vb))
      | .error e2 => .error e2
    | .error e1 => .error e1
  | .eqIte a b t el, ck, args =>
    match evalExprP a ck args with
    | .ok va =>
      match evalExprP b ck args with
      | .ok vb =>
        if va = vb then evalExprP t ck args else evalExprP el ck args
      | .error e2 => .error e2
    | .error e1 => .error e1

/-- Parametric CookieCutter.do(cookie, mood, op, *args):
if op is not in self._operations:
  return self._helpers[mood].do(cookie, mood, op, *args)  -- KeyError on a
  missing mood becomes Err.noSuchMode; no try/except here;
return self._operations[op](cookie, *args). -/
def cutterDoP : Nat → PCookieCutter → PCookie → String → String → List Value →
    Except Err Value
  | 0, _, _, _, _, _ => .error .outOfFuel
  | fuel+1, cu, ck, mood, op, args =>
    match lookupKey cu.operations op with
    | some body => evalExprP body ck args
    | Option.none =>
      match lookupKey cu.helpers mood with
      | some h => cutterDoP fuel h ck mood op args
      | Option.none => .error (.noSuchMode mood)

/-- Parametric cookie.do(op, mood, *args): the get/set accessor branches
are identical to the plain cookie; otherwise
return self._cutter.do(self, mood, op)  -- again args are not forwarded. -/
def cookieDoP (fuel : Nat) (ck : PCookie) (op mood : String) (args : List Value) :
    Except Err Value × PCookie :=
  if pyStartsWith op "set" then
    match args with
    | [] => (.error .indexError, ck)
    | v :: _ =>
      (.ok .none, { ck with values := storeKey ck.values (pyLower (pyDrop op 3)) v })
  else if pyStartsWith op "get" then
    match lookupKey ck.values (pyLower (pyDrop op 3)) with
    | some v => (.ok v, ck)
    | Option.none => (.error (.noSuchProperty (pyLower (pyDrop op 3))), ck)
  else
    (cutterDoP fuel ck.cutter ck mood op [], ck)

/-- contemplate(cookie) of the parametric cell:
"I am looking at a delicious ...cookie.... Temptation is strong." -/
def contemplateP : Expr :=
  .append (.lit "I am looking at a delicious ")
    (.append .selfStr (.lit ". Temptation is strong."))

/-- succumb(cookie):
"I was looking at a delicious ...cookie.... Temptation was too strong." -/
def succumb : Expr :=
  .append (.lit "I was looking at a delicious ")
    (.append .selfStr (.lit ". Temptation was too strong."))

def beachbodyNutsCookieCutter : PCookieCutter :=
  .mk "NutsCookie" [("contemplate", contemplateP)] []

def honestNutsCookieCutter : PCookieCutter :=
  .mk "NutsCookie" [("contemplate", succumb)] []

def macadamiaCookieCutterP : PCookieCutter :=
  .mk "MacadamiaCookie" []
    [("beachbody", beachbodyNutsCookieCutter), ("honest", honestNutsCookieCutter)]

/-- noonCookie of the parametric cell (color = "white"). -/
def noonCookieP : PCookie :=
  ⟨macadamiaCookieCutterP, [("color", .str "white")]⟩

/-! ### Small concrete cutters and cookies used to instantiate theorems -/

/-- A cutter with no operations and no helpers. -/
def cutterPlain : CookieCutter := .mk "Plain" [] []

/-- A cookie of cutterPlain with an empty value store. -/
def cookiePlain : Cookie := ⟨cutterPlain, []⟩

/-- Delegate A defining operation "x" as the literal "fromA". -/
def cutterAx : CookieCutter := .mk "A" [("x", .lit "fromA")] []

/-- Delegate B defining operation "x" as the literal "fromB". -/
def cutterBx : CookieCutter := .mk "B" [("x", .lit "fromB")] []

/-- A cutter without "x" delegating, in order, to cutterAx then cutterBx. -/
def cutterDx : CookieCutter := .mk "D" [] [cutterAx, cutterBx]

/-- A cookie of cutterDx. -/
def cookieDx : Cookie := ⟨cutterDx, []⟩

/-- A delegate whose "x" operation raises KeyError (a get on an
undeclared property), a failure that is not "no such operation". -/
def cutterAfail : CookieCutter := .mk "A" [("x", .selfDo "getMissing")] []

/-- A cutter without "x" delegating to the failing cutterAfail, then
to cutterBx. -/
def cutterDbroad : CookieCutter := .mk "D" [] [cutterAfail, cutterBx]

/-- A cookie of cutterDbroad with an empty value store. -/
def cookieDbroad : Cookie := ⟨cutterDbroad, []⟩

/-- A cutter whose operation table defines an operation literally
named "getX" (unreachable through dispatch). -/
def cutterGetX : CookieCutter := .mk "G" [("getX", .lit "hidden")] []

/-- A cookie of cutterGetX with an empty value store ("x" undeclared). -/
def cookieGetX : Cookie := ⟨cutterGetX, []⟩

/-- A cutter whose "echo" operation returns its first positional
argument. -/
def echoCutter : CookieCutter := .mk "Echo" [("echo", .arg 0)] []

/-- A cookie of echoCutter. -/
def echoCookie : Cookie := ⟨echoCutter, []⟩

/-- A cookie whose value store declares the mixed-case key "Color". -/
def mixedCaseCookie : Cookie := ⟨cutterPlain, [("Color", .str "white")]⟩

/-- A cookie declaring the lowercase key "color" with value "white". -/
def accessorCookie : Cookie := ⟨cutterPlain, [("color", .str "white")]⟩

/-- Whether a dispatch outcome is a failure (a raised exception). -/
def isErr : Except Err Value → Bool
  | .ok _ => false
  | .error _ => true

/-! ### General lemmas about the string primitives and the dict model -/

/-- A character list is an initial segment of itself followed by
anything. -/
theorem charsStartWith_refl_append (p rest : List Char) :
    charsStartWith p (p ++ rest) = true := by
  induction p with
  | nil => rfl
  | cons c cs ih => simp [charsStartWith, ih]

/-- Any string of the form "get" + s starts with "get". -/
theorem pyStartsWith_get_get (s : String) :
    pyStartsWith ("get" ++ s) "get" = true := by
  have h : ("get" ++ s).data = "get".data ++ s.data := rfl
  rw [pyStartsWith, h]
  exact charsStartWith_refl_append _ _

/-- No string of the form "get" + s starts with "set". -/
theorem pyStartsWith_get_set (s : String) :
    pyStartsWith ("get" ++ s) "set" = false := by
  have h : ("get" ++ s).data = 'g' :: 'e' :: 't' :: s.data := rfl
  rw [pyStartsWith, h]
  simp [charsStartWith]

/-- Any string of the form "set" + s starts with "set". -/
theorem pyStartsWith_set_set (s : String) :
    pyStartsWith ("set" ++ s) "set" = true := by
  have h : ("set" ++ s).data = "set".data ++ s.data := rfl
  rw [pyStartsWith, h]
  exact charsStartWith_refl_append _ _

/-- Python slicing removes exactly the "get" prefix. -/
theorem pyDrop_get (s : String) : pyDrop ("get" ++ s) 3 = s := rfl

/-- Python slicing removes exactly the "set" prefix. -/
theorem pyDrop_set (s : String) : pyDrop ("set" ++ s) 3 = s := rfl

/-- Packing a valid codepoint and reading it back is the identity. -/
theorem char_toNat_ofNat_valid (n : Nat) (h : n.isValidChar) :
    (Char.ofNat n).toNat = n := by
  rw [Char.ofNat, dif_pos h]
  rfl

/-- Lowercasing after uppercasing is plain lowercasing (Char.toUpper
only touches basic latin lowercase letters). -/
theorem char_toLower_toUpper (c : Char) : c.toUpper.toLower = c.toLower := by
  simp only [Char.toUpper, Char.toLower]
  by_cases h : c.toNat ≥ 97 ∧ c.toNat ≤ 122
  · rw [if_pos h]
    have hvalid : Nat.isValidChar (c.toNat - 32) := Or.inl (by omega)
    have htn : (Char.ofNat (c.toNat - 32)).toNat = c.toNat - 32 :=
      char_toNat_ofNat_valid _ hvalid
    rw [htn, if_pos (by omega), if_neg (by omega)]
    have harith : c.toNat - 32 + 32 = c.toNat := by omega
    rw [harith, Char.ofNat_toNat]
  · rw [if_neg h]

/-- Char.toLower is idempotent. -/
theorem char_toLower_toLower (c : Char) : c.toLower.toLower = c.toLower := by
  simp only [Char.toLower]
  by_cases h : c.toNat ≥ 65 ∧ c.toNat ≤ 90
  · rw [if_pos h]
    have hvalid : Nat.isValidChar (c.toNat + 32) := Or.inl (by omega)
    have htn : (Char.ofNat (c.toNat + 32)).toNat = c.toNat + 32 :=
      char_toNat_ofNat_valid _ hvalid
    rw [htn, if_neg (by omega)]
  · rw [if_neg h, if_neg h]

/-- Lowercasing a capitalized string is the same as lowercasing it. -/
theorem pyLower_pyCapitalize (s : String) :
    pyLower (pyCapitalize s) = pyLower s := by
  rcases s with ⟨data⟩
  cases data with
  | nil => rfl
  | cons c cs =>
    show pyLower ⟨c.toUpper :: cs.map Char.toLower⟩ = pyLower ⟨c :: cs⟩
    simp only [pyLower, List.map_cons, List.map_map]
    rw [char_toLower_toUpper]
    have : cs.map (Char.toLower ∘ Char.toLower) = cs.map Char.toLower :=
      List.map_congr_left fun a _ => char_toLower_toLower a
    rw [this]

/-- Reading back a key just stored yields the stored value. -/
theorem lookupKey_storeKey {α : Type} (m : List (String × α)) (k : String) (v : α) :
    lookupKey (storeKey m k v) k = some v := by
  induction m with
  | nil => simp [storeKey, lookupKey]
  | cons p rest ih =>
    rcases p with ⟨k', v'⟩
    by_cases h : k' = k
    · simp [storeKey, h, lookupKey]
    · simp [storeKey, h, lookupKey, ih]

/-! ### Shared lemmas about the dispatch semantics -/

/-- cookie.do on a non-accessor operation name forwards only the
operation name to the cutter: the argument list is dropped (the source
line is return self._cutter.do(self, op)). -/
theorem cookieDo_notAccessor (fuel : Nat) (ck : Cookie) (op : String)
    (args : List Value)
    (hset : pyStartsWith op "set" = false)
    (hget : pyStartsWith op "get" = false) :
    cookieDo (fuel+1) ck op args = cutterDo fuel ck.cutter ck op [] := by
  simp [cookieDo, hset, hget]

/-- If every helper attempt fails (from any intermediate store state
and at any fuel), the helper loop raises "no such operation". -/
theorem tryHelpers_all_fail (op : String) (args : List Value) :
    ∀ (helpers : List CookieCutter) (fuel : Nat) (ck : Cookie),
      helpers.length < fuel →
      (∀ f' h ck', h ∈ helpers → isErr (cutterDo f' h ck' op args).1 = true) →
      (tryHelpers fuel helpers ck op args).1 = .error (.noSuchOperation op) := by
  intro helpers
  induction helpers with
  | nil =>
    intro fuel ck hlen hall
    cases fuel with
    | zero => simp at hlen
    | succ fuel => simp [tryHelpers]
  | cons h rest ih =>
    intro fuel ck hlen hall
    cases fuel with
    | zero => simp at hlen
    | succ fuel =>
      have hfail := hall fuel h ck (List.mem_cons_self h rest)
      rcases hcd : cutterDo fuel h ck op args with ⟨res, ck'⟩
      cases res with
      | ok v => rw [hcd] at hfail; simp [isErr] at hfail
      | error e =>
        have hstep : tryHelpers (fuel+1) (h :: rest) ck op args
            = tryHelpers fuel rest ck' op args := by
          simp [tryHelpers, hcd]
        rw [hstep]
        refine ih fuel ck' ?_ ?_
        · simpa using Nat.lt_of_succ_lt_succ hlen
        · intro f' h' ck'' hm
          exact hall f' h' ck'' (List.mem_cons_of_mem _ hm)

/-! ### The claims -/

/-- Claim C1: for a cutter D whose own operation table does not contain
"x" and whose ordered delegate list is [A, B] where both A and B define
"x", dispatching "x" on a cookie of D returns the result of A's
dispatch (the first delegate in declared order that succeeds), not
B's. -/
theorem C1_delegate_order (fuel : Nat) (D A B : CookieCutter)
    (ck ck' : Cookie) (v : Value)
    (hD : lookupKey D.operations "x" = Option.none)
    (hhelp : D.helpers = [A, B])
    (_hA : (lookupKey A.operations "x").isSome = true)
    (_hB : (lookupKey B.operations "x").isSome = true)
    (hck : ck.cutter = D)
    (hAres : cutterDo fuel A ck "x" [] = (.ok v, ck')) :
    cookieDo (fuel+3) ck "x" [] = (.ok v, ck') := by
  rw [cookieDo_notAccessor (fuel+2) ck "x" [] (by decide) (by decide), hck]
  simp only [cutterDo, hD, hhelp]
  simp only [tryHelpers, hAres]

/-- Claim C1 witness: with A's "x" returning "fromA" and B's "x"
returning "fromB", dispatch on a cookie of D returns "fromA". -/
theorem C1_delegate_order_witness :
    cookieDo 5 cookieDx "x" [] = (.ok (.str "fromA"), cookieDx) ∧
    (cookieDo 5 cookieDx "x" []).1 ≠ .ok (.str "fromB") := by
  refine ⟨?_, by decide⟩
  exact C1_delegate_order 2 cutterDx cutterAx cutterBx cookieDx cookieDx
    (.str "fromA") rfl rfl (by decide) (by decide) rfl rfl

/-- Claim C2: dispatching an operation name (not an accessor name) that
is neither in the cutter's own table nor resolvable by any delegate
(including the empty delegate list) fails with "no such operation"
naming that operation. -/
theorem C2_no_such_operation (fuel : Nat) (D : CookieCutter) (ck : Cookie)
    (op : String) (args : List Value)
    (hset : pyStartsWith op "set" = false)
    (hget : pyStartsWith op "get" = false)
    (hck : ck.cutter = D)
    (hop : lookupKey D.operations op = Option.none)
    (hfuel : D.helpers.length < fuel)
    (hall : ∀ f' h ck', h ∈ D.helpers → isErr (cutterDo f' h ck' op []).1 = true) :
    (cookieDo (fuel+2) ck op args).1 = .error (.noSuchOperation op) := by
  rw [cookieDo_notAccessor (fuel+1) ck op args hset hget, hck]
  simp only [cutterDo, hop]
  exact tryHelpers_all_fail op [] D.helpers fuel ck hfuel hall

/-- Claim C2 witness: a cutter with no operations and no delegates
fails with "no such operation" on a fresh name. -/
theorem C2_no_such_operation_witness :
    (cookieDo 3 cookiePlain "frobnicate" []).1
      = .error (.noSuchOperation "frobnicate") := by
  refine C2_no_such_operation 1 cutterPlain cookiePlain "frobnicate" []
    (by decide) (by decide) rfl rfl (by decide) ?_
  intro f' h ck' hm
  simp [cutterPlain, CookieCutter.helpers] at hm

/-- Claim C3 counterexample: the value store declares the key "Color"
with value "white", but invoke("get" + capitalize("Color")) does not
return "white": it raises KeyError("color"), because the accessor
lowercases the suffix and "color" is not a key. -/
theorem C3_counterexample :
    lookupKey mixedCaseCookie.values "Color" = some (.str "white") ∧
    (cookieDo 5 mixedCaseCookie ("get" ++ pyCapitalize "Color") []).1
      ≠ .ok (.str "white") ∧
    (cookieDo 5 mixedCaseCookie ("get" ++ pyCapitalize "Color") []).1
      = .error (.noSuchProperty "color") := by
  refine ⟨rfl, by decide, by decide⟩

/-- Claim C3 (amended): for every cookie whose value store declares a
key K that lowercasing leaves unchanged, invoke("get"+capitalize(K))
returns the stored value, and invoke("set"+capitalize(K), V2) stores V2
under K (returning None), after which the same get returns V2. -/
theorem C3_accessor_roundtrip (fuel : Nat) (ck : Cookie) (K : String)
    (V V2 : Value)
    (hK : pyLower K = K)
    (hdecl : lookupKey ck.values K = some V) :
    (cookieDo (fuel+1) ck ("get" ++ pyCapitalize K) []).1 = .ok V ∧
    cookieDo (fuel+1) ck ("set" ++ pyCapitalize K) [V2]
      = (.ok .none, { ck with values := storeKey ck.values K V2 }) ∧
    (cookieDo (fuel+1) { ck with values := storeKey ck.values K V2 }
        ("get" ++ pyCapitalize K) []).1 = .ok V2 := by
  have hkey : pyLower (pyDrop ("get" ++ pyCapitalize K) 3) = K := by
    rw [pyDrop_get, pyLower_pyCapitalize, hK]
  have hskey : pyLower (pyDrop ("set" ++ pyCapitalize K) 3) = K := by
    rw [pyDrop_set, pyLower_pyCapitalize, hK]
  refine ⟨?_, ?_, ?_⟩
  · simp [cookieDo, pyStartsWith_get_set, pyStartsWith_get_get, hkey, hdecl]
  · simp [cookieDo, pyStartsWith_set_set, hskey]
  · simp [cookieDo, pyStartsWith_get_set, pyStartsWith_get_get, hkey,
      lookupKey_storeKey]

/-- Claim C3 witness: the round-trip at the lowercase key "color". -/
theorem C3_accessor_roundtrip_witness :
    (cookieDo 3 accessorCookie ("get" ++ pyCapitalize "color") []).1
      = .ok (.str "white") ∧
    cookieDo 3 accessorCookie ("set" ++ pyCapitalize "color") [.str "dark"]
      = (.ok .none,
         { accessorCookie with
             values := storeKey accessorCookie.values "color" (.str "dark") }) ∧
    (cookieDo 3
        { accessorCookie with
            values := storeKey accessorCookie.values "color" (.str "dark") }
        ("get" ++ pyCapitalize "color") []).1 = .ok (.str "dark") :=
  C3_accessor_roundtrip 2 accessorCookie "color" (.str "white") (.str "dark")
    (by decide) rfl

/-- Claim C4 counterexample: "size" is not a key of the store, yet
invoke("setSize", "big") succeeds (returning None), does not raise
KeyError, and creates the key "size" in the store. -/
theorem C4_counterexample :
    lookupKey accessorCookie.values "size" = Option.none ∧
    (cookieDo 5 accessorCookie "setSize" [.str "big"]).1 = .ok .none ∧
    (cookieDo 5 accessorCookie "setSize" [.str "big"]).1
      ≠ .error (.noSuchProperty "size") ∧
    lookupKey (cookieDo 5 accessorCookie "setSize" [.str "big"]).2.values "size"
      = some (.str "big") := by
  refine ⟨rfl, by decide, by decide, by decide⟩

/-- Claim C4 (amended): a set-accessor call with at least one argument
always succeeds, returning None and storing the argument under the
lowercased suffix — creating that key when it is absent; the
set-accessor never raises KeyError. -/
theorem C4_set_accessor_creates (fuel : Nat) (ck : Cookie) (op : String)
    (v : Value) (rest : List Value)
    (hset : pyStartsWith op "set" = true) :
    cookieDo (fuel+1) ck op (v :: rest)
      = (.ok .none,
         { ck with values := storeKey ck.values (pyLower (pyDrop op 3)) v }) ∧
    lookupKey (storeKey ck.values (pyLower (pyDrop op 3)) v)
        (pyLower (pyDrop op 3)) = some v := by
  refine ⟨?_, lookupKey_storeKey _ _ _⟩
  simp [cookieDo, hset]

/-- Claim C4 witness: setSize on a store without "size". -/
theorem C4_set_accessor_creates_witness :
    cookieDo 3 accessorCookie "setSize" [.str "big"]
      = (.ok .none,
         { accessorCookie with
             values := storeKey accessorCookie.values
               (pyLower (pyDrop "setSize" 3)) (.str "big") }) ∧
    lookupKey (storeKey accessorCookie.values
        (pyLower (pyDrop "setSize" 3)) (.str "big"))
        (pyLower (pyDrop "setSize" 3)) = some (.str "big") :=
  C4_set_accessor_creates 2 accessorCookie "setSize" (.str "big") [] (by decide)

/-- Claim C5: for an operation name of get form whose lowercased suffix
is not a key of the store, the accessor path runs first and raises
KeyError, even when an operation of that exact name exists in the
cutter's operation table — such an operation is unreachable. -/
theorem C5_accessor_priority (fuel : Nat) (ck : Cookie) (op : String)
    (args : List Value) (body : Expr)
    (hset : pyStartsWith op "set" = false)
    (hget : pyStartsWith op "get" = true)
    (habs : lookupKey ck.values (pyLower (pyDrop op 3)) = Option.none)
    (_hop : lookupKey ck.cutter.operations op = some body) :
    cookieDo (fuel+1) ck op args
      = (.error (.noSuchProperty (pyLower (pyDrop op 3))), ck) := by
  simp [cookieDo, hset, hget, habs]

/-- Claim C5 witness: the cutter defines an operation named "getX", yet
invoke("getX") on a cookie without the key "x" raises KeyError("x"). -/
theorem C5_accessor_priority_witness :
    lookupKey cookieGetX.cutter.operations "getX" = some (.lit "hidden") ∧
    cookieDo 3 cookieGetX "getX" []
      = (.error (.noSuchProperty (pyLower (pyDrop "getX" 3))), cookieGetX) := by
  refine ⟨rfl, ?_⟩
  exact C5_accessor_priority 2 cookieGetX "getX" [] (.lit "hidden")
    (by decide) (by decide) rfl rfl

/-- Claim C6: during the ordered delegate search, any failure of a
delegate attempt — here a KeyError, not a "no such operation" — is
swallowed and the search continues with the next delegate in order. -/
theorem C6_broad_catch (fuel : Nat) (D A B : CookieCutter)
    (ck ck₁ ck₂ : Cookie) (e : Err) (v : Value) (op : String)
    (args : List Value)
    (hop : lookupKey D.operations op = Option.none)
    (hhelp : D.helpers = [A, B])
    (hAfail : cutterDo (fuel+1) A ck op args = (.error e, ck₁))
    (hBok : cutterDo fuel B ck₁ op args = (.ok v, ck₂)) :
    cutterDo (fuel+3) D ck op args = (.ok v, ck₂) := by
  simp only [cutterDo, hop, hhelp]
  simp only [tryHelpers, hAfail, hBok]

/-- Claim C6 witness: delegate A's "x" fails with KeyError("missing"),
which is suppressed, and B's result "fromB" is returned. -/
theorem C6_broad_catch_witness :
    cutterDo 5 cutterDbroad cookieDbroad "x" [] = (.ok (.str "fromB"), cookieDbroad) ∧
    (cutterDo 3 cutterAfail cookieDbroad "x" []).1
      = .error (.noSuchProperty "missing") := by
  refine ⟨?_, by decide⟩
  exact C6_broad_catch 2 cutterDbroad cutterAfail cutterBx cookieDbroad
    cookieDbroad cookieDbroad (.noSuchProperty "missing") (.str "fromB") "x" []
    rfl rfl rfl rfl

/-- Claim C7: in the parametric variant, with the delegate mapping
"beachbody" to the cutter defining contemplate and "honest" to the one
defining succumb, dispatching "contemplate" with mood "beachbody"
returns the first cutter's result, with "honest" the second's, and an
unknown mood fails with "no such mode". -/
theorem C7_parametric_dispatch :
    (cookieDoP 5 noonCookieP "contemplate" "beachbody" []).1
      = .ok (.str "I am looking at a delicious MacadamiaCookie cookie. Temptation is strong.") ∧
    (cookieDoP 5 noonCookieP "contemplate" "honest" []).1
      = .ok (.str "I was looking at a delicious MacadamiaCookie cookie. Temptation was too strong.") ∧
    (cookieDoP 5 noonCookieP "contemplate" "grumpy" []).1
      = .error (.noSuchMode "grumpy") := by
  refine ⟨by decide, by decide, by decide⟩

/-- Claim C8 counterexample: the claim says invoke forwards the full
argument list to dispatch; but with an "echo" operation returning its
first argument, invoke("echo", "hello") yields IndexError while a
dispatch receiving the arguments would return "hello". -/
theorem C8_counterexample :
    (cutterDo 4 echoCookie.cutter echoCookie "echo" [.str "hello"]).1
      = .ok (.str "hello") ∧
    (cookieDo 5 echoCookie "echo" [.str "hello"]).1 = .error .indexError ∧
    (cookieDo 5 echoCookie "echo" [.str "hello"]).1
      ≠ (cutterDo 4 echoCookie.cutter echoCookie "echo" [.str "hello"]).1 := by
  refine ⟨by decide, by decide, by decide⟩

/-- Claim C8 (amended): invoke on a non-accessor operation forwards
only the operation name to the cutter's dispatch; the positional
arguments are dropped (they are consulted only by the set accessor). -/
theorem C8_invoke_drops_args (fuel : Nat) (ck : Cookie) (op : String)
    (args : List Value)
    (hset : pyStartsWith op "set" = false)
    (hget : pyStartsWith op "get" = false) :
    cookieDo (fuel+1) ck op args = cutterDo fuel ck.cutter ck op [] :=
  cookieDo_notAccessor fuel ck op args hset hget

/-- Claim C8 witness: invoking "echo" with one argument is the same as
dispatching "echo" with none. -/
theorem C8_invoke_drops_args_witness :
    cookieDo 5 echoCookie "echo" [.str "hello"]
      = cutterDo 4 echoCookie.cutter echoCookie "echo" [] :=
  C8_invoke_drops_args 4 echoCookie "echo" [.str "hello"] (by decide) (by decide)

/-- Claim C9: end to end, the MacadamiaCookie cutter (bake returns "30"
on a white cookie and "100" otherwise) with delegate NutsCookie
(contemplate embeds bake's result in a templated string): the white
cookie's contemplate embeds "30", the dark one's embeds "100". -/
theorem C9_end_to_end :
    (cookieDo 20 noonCookie "contemplate" []).1
      = .ok (.str "I am looking at a delicious MacadamiaCookie cookie, baked at 30. Temptation is strong.") ∧
    (cookieDo 20 midnightCookie "contemplate" []).1
      = .ok (.str "I am looking at a delicious MacadamiaCookie cookie, baked at 100. Temptation is strong.") := by
  refine ⟨by decide, by decide⟩

/-- Claim C10: in the parametric variant, when the operation is present
in the cutter's own table, dispatch returns the operation's result
without consulting the mood: the outcome is the same for every mood,
including moods absent from the delegate mapping, so "no such mode"
can only arise on a local-operation miss. -/
theorem C10_local_op_ignores_mood (fuel : Nat) (cu : PCookieCutter)
    (ck : PCookie) (mood op : String) (args : List Value) (body : Expr)
    (hop : lookupKey cu.operations op = some body) :
    cutterDoP (fuel+1) cu ck mood op args = evalExprP body ck args := by
  simp [cutterDoP, hop]

/-- Claim C10 witness: dispatching "contemplate" on the beachbody
cutter with a mood absent from its (empty) delegate mapping still
returns contemplate's result. -/
theorem C10_local_op_ignores_mood_witness :
    cutterDoP 3 beachbodyNutsCookieCutter noonCookieP "grumpy" "contemplate" []
      = evalExprP contemplateP noonCookieP [] ∧
    lookupKey beachbodyNutsCookieCutter.helpers "grumpy" = Option.none := by
  refine ⟨?_, rfl⟩
  exact C10_local_op_ignores_mood 2 beachbodyNutsCookieCutter noonCookieP
    "grumpy" "contemplate" [] contemplateP rfl

end TowardsOO
